import Mathlib

/-!
# Verification of the matter-test merge-game core

A shallow embedding of `src/matter-test.js` (and its variant
`src/unnamed/part_000`): the tier catalog, shape factory, fusion
resolver (`collisionStart` handler), velocity governor (`afterUpdate`
handler), spawn scheduler (`spawnShape`) and the active-shape
controller (`update` loop).

Conventions of the embedding:
* JS numbers are modelled as rationals (`ℚ`); the claims under study
  involve only comparisons, clamping, rounding and polynomial
  arithmetic, where `ℚ` agrees with the intended real-number reading.
* Matter.js bodies are records; a collision pair holds the body
  records themselves (as the JS pairs hold object references), so a
  pair still carries `plugin.shapeData` and a position even after the
  body was removed from the world — exactly as in the source.
* `Composite.remove` removes a body from the world list by identity,
  modelled by a unique numeric `id`; removing an absent body is a
  no-op, as in Matter.js.
* the sound side effects (`playFuseSound` / `playMaxSizeSound`) are
  modelled as counters on the game state.
-/

namespace MatterTest

/-- `SHAPE_TYPES = ['circle', 'roundedRect', 'roundedTriangle']`:
the closed set of shape kinds. -/
inductive ShapeType where
  | circle
  | roundedRect
  | roundedTriangle
deriving DecidableEq, Repr

/-- The list `SHAPE_TYPES` from the source, in source order. -/
def SHAPE_TYPES : List ShapeType :=
  [ShapeType.circle, ShapeType.roundedRect, ShapeType.roundedTriangle]

/-- One entry of `SIZE_LEVELS`: a size tier's label and geometry. -/
structure SizeLevel where
  label : String
  circleRadius : ℚ
  rectSize : ℚ
  chamferRadius : ℚ
deriving DecidableEq, Repr

/-- The literal `SIZE_LEVELS` array as written in the source, before
the in-place scaling loop runs. -/
def baseSizeLevels : List SizeLevel :=
  [ ⟨"XS", 40, 80, 16⟩
  , ⟨"S", 60, 120, 32⟩
  , ⟨"M", 80, 160, 48⟩
  , ⟨"L", 100, 200, 64⟩ ]

/-- The scaling loop
`for (const sl of SIZE_LEVELS) { sl.circleRadius *= sizeFactor; ... }`
with `sizeFactor = canvasWidth / 2000`, applied to an arbitrary level
list.  The source performs no validation whatsoever here: the function
is total and never signals an error. -/
def scaleLevels (canvasWidth : ℚ) (levels : List SizeLevel) : List SizeLevel :=
  let sizeFactor := canvasWidth / 2000
  levels.map (fun sl =>
    { sl with
        circleRadius := sl.circleRadius * sizeFactor
        rectSize := sl.rectSize * sizeFactor
        chamferRadius := sl.chamferRadius * sizeFactor })

/-- `SIZE_LEVELS` as the rest of the program sees it: the literal
array after the scaling loop has run. -/
def SIZE_LEVELS (canvasWidth : ℚ) : List SizeLevel :=
  scaleLevels canvasWidth baseSizeLevels

/-- `plugin.shapeData`: the `{type, sizeIndex}` tag attached to game
bodies. -/
structure ShapeData where
  type : ShapeType
  sizeIndex : ℕ
deriving DecidableEq, Repr

/-- A Matter.js body, restricted to the state the core reads or
writes: position, velocity, accumulated force, the static/sensor
flags, the optional `plugin.shapeData` tag and the ad-hoc
`prevPositionY` property the update loop stores on the current
shape (`none` models the JS `undefined` before the first write). -/
structure Body where
  id : ℕ
  position : ℚ × ℚ
  velocity : ℚ × ℚ
  force : ℚ × ℚ
  isStatic : Bool
  isSensor : Bool
  shapeData : Option ShapeData
  prevPositionY : Option ℚ
deriving DecidableEq, Repr

/-- The canvas dimensions computed at `load` from the viewport. -/
structure Env where
  canvasWidth : ℚ
  canvasHeight : ℚ
deriving DecidableEq, Repr

/-- The mutable state of the game script: the world's body list, the
`currentShape` reference, a fresh-id counter for newly created bodies,
and counters for the two sound signals. -/
structure GameState where
  bodies : List Body
  currentShape : Option Body
  nextId : ℕ
  fuseSounds : ℕ
  maxSizeSounds : ℕ
deriving DecidableEq, Repr

/-- `Composite.remove(world, body)`: delete the body (identified by
`id`) from the world list; a no-op when it is not there. -/
def removeBody (st : GameState) (bid : ℕ) : GameState :=
  { st with bodies := st.bodies.filter (fun b => b.id ≠ bid) }

/-! ## VelocityGovernor: the `afterUpdate` handler -/

/-- `const maxVelocity = { x: 20, y: -1 };` (the `y` bound is unused:
the line clamping `vy` is commented out in the source). -/
def maxVelocity : ℚ × ℚ := (20, -1)

/-- The clamp applied to the horizontal velocity component inside the
`afterUpdate` handler. -/
def clampVx (vx : ℚ) : ℚ :=
  if vx > maxVelocity.1 then maxVelocity.1
  else if vx < -maxVelocity.1 then -maxVelocity.1
  else vx

/-- The per-body action of the `afterUpdate` handler: skip static or
sensor bodies, otherwise set the velocity to the clamped horizontal
component paired with the unchanged vertical component. -/
def governBody (b : Body) : Body :=
  if b.isStatic || b.isSensor then b
  else { b with velocity := (clampVx b.velocity.1, b.velocity.2) }

/-- One full `afterUpdate` pass over all bodies of the world. -/
def afterUpdate (bodies : List Body) : List Body :=
  bodies.map governBody

/-! ## ShapeFactory: `createShapeAtPosition` -/

/-- `createShapeAtPosition(type, sizeIndex, x, y)`: build a body at
`(x, y)` tagged with `plugin.shapeData = {type, sizeIndex}`, apply the
fixed downward nudge `Body.applyForce(body, pos, {x: 0, y: 0.1})`
(accumulated into `force`; a fresh Matter body starts with zero
velocity and force), add it to the world and register it as the new
`currentShape`.  The geometry/color lookups into `SIZE_LEVELS` and
`shapeColorMap` only shape the engine-owned vertex data and render
style, which the core never reads back; the body record keeps the
state the core consumes. -/
def createShapeAtPosition (st : GameState) (type : ShapeType)
    (sizeIndex : ℕ) (x y : ℚ) : GameState :=
  let body : Body :=
    { id := st.nextId
      position := (x, y)
      velocity := (0, 0)
      force := (0, 1/10)
      isStatic := false
      isSensor := false
      shapeData := some ⟨type, sizeIndex⟩
      prevPositionY := none }
  { st with
      bodies := st.bodies ++ [body]
      currentShape := some body
      nextId := st.nextId + 1 }

/-! ## SpawnScheduler: `spawnShape` -/

/-- `spawnShape()`, with the two `Math.random()` draws made explicit
as parameters `rKind, rX ∈ [0, 1)`:
`type = SHAPE_TYPES[Math.floor(rKind * SHAPE_TYPES.length)]` and
`x = rX * (canvasWidth - 60) + 30`, spawned at `y = -60` with
`sizeIndex = 0`.  (`getD` totalizes the array access; for any draw in
`[0, 1)` the index is in range, matching the JS.) -/
def spawnShape (env : Env) (st : GameState) (rKind rX : ℚ) : GameState :=
  let type := SHAPE_TYPES.getD (Int.toNat ⌊rKind * SHAPE_TYPES.length⌋) ShapeType.circle
  createShapeAtPosition st type 0 (rX * (env.canvasWidth - 60) + 30) (-60)

/-! ## FusionResolver: the `collisionStart` handler -/

/-- The body of the `for (let pair of event.pairs)` loop.  The pair
carries the two body records themselves (JS object references): their
`plugin.shapeData` and `position` remain readable even if an earlier
pair's processing already removed them from the world, and the source
has no destroyed-this-batch guard. -/
def processPair (env : Env) (st : GameState) (pair : Body × Body) : GameState :=
  let bodyA := pair.1
  let bodyB := pair.2
  match bodyA.shapeData, bodyB.shapeData with
  | some dataA, some dataB =>
    if dataA.type = dataB.type ∧ dataA.sizeIndex = dataB.sizeIndex then
      if dataA.sizeIndex < (SIZE_LEVELS env.canvasWidth).length - 1 then
        -- playFuseSound(); remove both; create the successor at A's position
        let st1 := { st with fuseSounds := st.fuseSounds + 1 }
        let st2 := removeBody (removeBody st1 bodyA.id) bodyB.id
        createShapeAtPosition st2 dataA.type (dataA.sizeIndex + 1)
          bodyA.position.1 bodyA.position.2
      else
        -- playMaxSizeSound(); remove both; create nothing
        let st1 := { st with maxSizeSounds := st.maxSizeSounds + 1 }
        removeBody (removeBody st1 bodyA.id) bodyB.id
    else st
  | _, _ => st

/-- The whole `collisionStart` handler: fold the pair loop over the
reported batch in report order. -/
def collisionStart (env : Env) (st : GameState) (pairs : List (Body × Body)) : GameState :=
  pairs.foldl (processPair env) st

/-! ## ActiveShapeController: the `update` loop -/

/-- `Math.round` for the values that occur here: round half toward
positive infinity, `⌊q + 1/2⌋`. -/
def jsRound (q : ℚ) : ℤ := ⌊q + 1/2⌋

/-- JS truthiness of the `prevPositionY` property: `undefined` (here
`none`) and `0` are falsy, every other number is truthy. -/
def truthyPrevY : Option ℚ → Bool
  | none => false
  | some p => p ≠ 0

/-- The settle test of the update loop, exactly as the source guards
it: `speed < 0.2 && currentShape.prevPositionY &&
Math.round(position.y) == Math.round(prevPositionY)`.  The source
compares `Math.sqrt(vx² + vy²) < 0.2`; over the nonnegative radicand
this is equivalent to `vx² + vy² < 0.2² = 1/25`, which keeps the
definition inside `ℚ`. -/
def settleCheck (shape : Body) : Bool :=
  decide (shape.velocity.1 ^ 2 + shape.velocity.2 ^ 2 < 1/25)
    && truthyPrevY shape.prevPositionY
    && (jsRound shape.position.2 == jsRound (shape.prevPositionY.getD 0))

/-- Line 340, `currentShape.prevPositionY = currentShape.position.y`:
the write goes through the `currentShape` reference, so it also
updates the world's copy of that body (same JS object). -/
def setPrevY (st : GameState) : GameState :=
  match st.currentShape with
  | none => st
  | some shape =>
    let shape' := { shape with prevPositionY := some shape.position.2 }
    { st with
        currentShape := some shape'
        bodies := st.bodies.map (fun b => if b.id = shape.id then shape' else b) }

/-- One tick of the `update` animation-frame loop (the two random
draws a possible `spawnShape` call would make are passed in).  When
`currentShape` is null the tick does nothing; otherwise: off-screen
check (`position.y > canvasHeight + 50` → remove, null, respawn),
else the settle check (→ null, respawn), and in every case line 340
stores the current shape's `position.y` as its `prevPositionY` —
after a respawn, `currentShape` is already the newly spawned body. -/
def update (env : Env) (st : GameState) (rKind rX : ℚ) : GameState :=
  match st.currentShape with
  | none => st
  | some shape =>
    if shape.position.2 > env.canvasHeight + 50 then
      let st1 := { removeBody st shape.id with currentShape := none }
      setPrevY (spawnShape env st1 rKind rX)
    else
      if settleCheck shape then
        let st1 := { st with currentShape := none }
        setPrevY (spawnShape env st1 rKind rX)
      else
        setPrevY st

/-! ## The color side of the tier catalog -/

/-- The literal `shapeColorMap`: one color per (kind, tier). -/
def shapeColorMap : ShapeType → List String
  | ShapeType.circle => ["#FF9898", "#FF7171", "#FF4B4B", "#FF2020"]
  | ShapeType.roundedRect => ["#98FF98", "#71FF71", "#4BFF4B", "#20FF20"]
  | ShapeType.roundedTriangle => ["#9898FF", "#7171FF", "#4B4BFF", "#2020FF"]

/-- Modelled from the spec: the catalog invariant that §4.1/§7 say
construction must check — every kind has the same tier count as the
size-level table, and the geometry values are positive and strictly
monotonic across tiers.  The source contains no code checking this
(and no `ConfigurationError` at all); the predicate exists to compare
the shipped data, and the unchecked construction path, against the
spec's requirement. -/
def specCatalogValid (levels : List SizeLevel) (colors : ShapeType → List String) : Prop :=
  (∀ k : ShapeType, (colors k).length = levels.length) ∧
  (∀ sl ∈ levels, 0 < sl.circleRadius ∧ 0 < sl.rectSize ∧ 0 < sl.chamferRadius) ∧
  levels.Chain' (fun a b =>
    a.circleRadius < b.circleRadius ∧ a.rectSize < b.rectSize ∧
    a.chamferRadius < b.chamferRadius)

/-! ## Concrete instances used by witnesses and counterexamples -/

/-- A canvas of 2000 × 1000 display units (`sizeFactor = 1`). -/
def demoEnv : Env := ⟨2000, 1000⟩

/-- A resting game shape at `(x, y)` tagged `{type := t, sizeIndex := s}`. -/
def mkShape (i : ℕ) (x y : ℚ) (t : ShapeType) (s : ℕ) : Body :=
  { id := i, position := (x, y), velocity := (0, 0), force := (0, 0),
    isStatic := false, isSensor := false, shapeData := some ⟨t, s⟩,
    prevPositionY := none }

/-- Scenario D's bodies: three tier-0 circles A, B, C. -/
def bodyA1 : Body := mkShape 0 100 500 ShapeType.circle 0

/-- Second body of scenario D. -/
def bodyB1 : Body := mkShape 1 160 500 ShapeType.circle 0

/-- Third body of scenario D. -/
def bodyC1 : Body := mkShape 2 220 500 ShapeType.circle 0

/-- Scenario D's initial world: A, B, C live, no controlled shape. -/
def stBatch : GameState := ⟨[bodyA1, bodyB1, bodyC1], none, 3, 0, 0⟩

/-- A controlled shape whose stored `prevPositionY` is exactly `0`:
at rest (zero velocity), current `y = 1/4`, which rounds to `0` just
like the stored sample. -/
def shapeZero : Body :=
  { mkShape 5 100 (1/4) ShapeType.circle 0 with prevPositionY := some 0 }

/-- Game state controlling `shapeZero`. -/
def stZero : GameState := ⟨[shapeZero], some shapeZero, 6, 0, 0⟩

/-- A controlled shape that has no stored `prevPositionY` sample yet
(the JS property is still `undefined`), otherwise at rest like
`shapeZero`. -/
def shapeNone : Body := mkShape 7 100 (1/4) ShapeType.circle 0

/-- Game state controlling `shapeNone`. -/
def stNone : GameState := ⟨[shapeNone], some shapeNone, 8, 0, 0⟩

/-- A controlled shape that genuinely settles: previous sample `1/3`
(truthy) and current `y = 1/4` round to the same whole unit, speed
zero. -/
def shapeSettled : Body :=
  { mkShape 9 100 (1/4) ShapeType.circle 0 with prevPositionY := some (1/3) }

/-- Game state controlling `shapeSettled`. -/
def stSettled : GameState := ⟨[shapeSettled], some shapeSettled, 10, 0, 0⟩

/-- A controlled shape that has fallen past the lower boundary of the
demo field (`y = 1100 > 1000 + 50`). -/
def shapeFallen : Body := mkShape 11 100 1100 ShapeType.circle 0

/-- Game state controlling `shapeFallen`. -/
def stFallen : GameState := ⟨[shapeFallen], some shapeFallen, 12, 0, 0⟩

/-- An invalid level table: only two tiers (the color arrays have
four), a negative circle radius, and radii that decrease. -/
def badLevels : List SizeLevel :=
  [⟨"XS", -40, 80, 16⟩, ⟨"S", -60, 120, 32⟩]

/-! ## Helper lemmas -/

/-- Removing one body that is present in a world with pairwise
distinct ids shrinks the body list by exactly one. -/
theorem length_filter_id_ne {l : List Body} {b : Body}
    (hnd : (l.map Body.id).Nodup) (hb : b ∈ l) :
    (l.filter (fun x => x.id ≠ b.id)).length + 1 = l.length := by
  induction l with
  | nil => cases hb
  | cons a t ih =>
    simp only [List.map_cons, List.nodup_cons, List.mem_map] at hnd
    rcases List.mem_cons.mp hb with rfl | hbt
    · have ht : t.filter (fun x => x.id ≠ b.id) = t := by
        refine List.filter_eq_self.mpr (fun x hx => ?_)
        simp only [ne_eq, decide_not, Bool.not_eq_eq_eq_not, Bool.not_true,
          decide_eq_false_iff_not]
        exact fun hxb => hnd.1 ⟨x, hx, hxb⟩
      simp [List.filter_cons, ht]
      exact fun x hx hxb => hnd.1 ⟨x, hx, hxb⟩
    · have hab : a.id ≠ b.id := fun h => hnd.1 ⟨b, hbt, h.symm⟩
      have ih' := ih hnd.2 hbt
      simp [List.filter_cons, hab] at ih' ⊢
      exact ih'

/-- Filtering preserves distinctness of the ids. -/
theorem nodup_map_id_filter (l : List Body) (p : Body → Bool)
    (hnd : (l.map Body.id).Nodup) : ((l.filter p).map Body.id).Nodup :=
  hnd.sublist ((List.filter_sublist l).map Body.id)

/-- Every shape kind is an element of `SHAPE_TYPES`. -/
theorem mem_SHAPE_TYPES (k : ShapeType) : k ∈ SHAPE_TYPES := by
  cases k <;> simp [SHAPE_TYPES]

/-- Unfolding of the settle test into its three conjuncts, with the
truthiness of `prevPositionY` made explicit. -/
theorem settleCheck_eq_true_iff (shape : Body) :
    settleCheck shape = true ↔
      (shape.velocity.1 ^ 2 + shape.velocity.2 ^ 2 < 1/25 ∧
        ∃ p, shape.prevPositionY = some p ∧ p ≠ 0 ∧
          jsRound shape.position.2 = jsRound p) := by
  cases hp : shape.prevPositionY with
  | none => simp [settleCheck, truthyPrevY, hp]
  | some p =>
    by_cases hz : p = 0
    · subst hz; simp [settleCheck, truthyPrevY, hp]
    · simp [settleCheck, truthyPrevY, hp, hz, and_assoc]

/-! ## Claim theorems -/

/-- **C6.** After one VelocityGovernor pass (`afterUpdate` handler),
every dynamic (non-static, non-sensor) body's horizontal velocity lies
in `[-Vmax, +Vmax]`, equals its input horizontal velocity when that was
already within range, and its vertical velocity (and everything else
about the body) is unchanged; static and sensor bodies are not
modified. -/
theorem afterUpdate_clamps (bodies : List Body) :
    afterUpdate bodies = bodies.map governBody ∧
    ∀ b ∈ bodies,
      ((b.isStatic = false ∧ b.isSensor = false) →
        -maxVelocity.1 ≤ (governBody b).velocity.1 ∧
        (governBody b).velocity.1 ≤ maxVelocity.1 ∧
        ((-maxVelocity.1 ≤ b.velocity.1 ∧ b.velocity.1 ≤ maxVelocity.1) →
          (governBody b).velocity.1 = b.velocity.1) ∧
        (governBody b).velocity.2 = b.velocity.2 ∧
        (governBody b).position = b.position ∧
        (governBody b).id = b.id) ∧
      ((b.isStatic = true ∨ b.isSensor = true) → governBody b = b) := by
  refine ⟨rfl, fun b _ => ⟨fun hdyn => ?_, fun hss => ?_⟩⟩
  · have hg : governBody b = { b with velocity := (clampVx b.velocity.1, b.velocity.2) } := by
      simp [governBody, hdyn.1, hdyn.2]
    rw [hg]
    refine ⟨?_, ?_, ?_, rfl, rfl, rfl⟩
    · simp only [clampVx, maxVelocity]
      split_ifs <;> linarith
    · simp only [clampVx, maxVelocity]
      split_ifs <;> linarith
    · rintro ⟨hlo, hhi⟩
      simp only [clampVx, maxVelocity] at hlo hhi ⊢
      split_ifs <;> first | rfl | linarith
  · rcases hss with h | h <;> simp [governBody, h]

/-- Witness for `afterUpdate_clamps`: a two-body world with one
dynamic body moving at `vx = 30` and one static floor. -/
theorem afterUpdate_clamps_witness :
    let fast : Body := { id := 0, position := (0, 0), velocity := (30, 5),
                         force := (0, 0), isStatic := false, isSensor := false,
                         shapeData := none, prevPositionY := none }
    let floor : Body := { id := 1, position := (0, 100), velocity := (0, 0),
                          force := (0, 0), isStatic := true, isSensor := false,
                          shapeData := none, prevPositionY := none }
    (governBody fast).velocity = (20, 5) ∧ governBody floor = floor := by
  intro fast floor
  have h := (afterUpdate_clamps [fast, floor]).2
  have hfast := (h fast (by simp)).1 ⟨rfl, rfl⟩
  have hfloor := (h floor (by simp)).2 (Or.inl rfl)
  refine ⟨?_, hfloor⟩
  have h20 : (governBody fast).velocity.1 = 20 := by
    rcases hfast with ⟨-, hhi, -, -⟩
    have : (governBody fast).velocity.1 = clampVx 30 := by simp [governBody, fast]
    rw [this]
    simp [clampVx, maxVelocity]
    norm_num
  have h5 : (governBody fast).velocity.2 = 5 := by
    simp [governBody, fast]
  exact Prod.ext h20 h5

/-- **C9.** The VelocityGovernor's per-body clamp is idempotent:
applying the per-body pass twice yields the same body as applying it
once (and the underlying horizontal clamp is idempotent). -/
theorem governBody_idempotent (b : Body) :
    governBody (governBody b) = governBody b ∧
    ∀ vx : ℚ, clampVx (clampVx vx) = clampVx vx := by
  have hclamp : ∀ vx : ℚ, clampVx (clampVx vx) = clampVx vx := by
    intro vx
    simp only [clampVx, maxVelocity]
    split_ifs <;> first | rfl | linarith
  refine ⟨?_, hclamp⟩
  by_cases hss : b.isStatic || b.isSensor
  · simp [governBody, hss]
  · simp [governBody, hss, hclamp]

/-- **C2.** Processing a collision pair whose two instances share the
same kind `k` and the same tier `t < N-1` destroys both instances,
creates exactly one new instance of `(k, t+1)` at the first body's
position, and emits a "fuse" signal; with pairwise distinct body ids
and a fresh id counter, the net instance count decreases by one. -/
theorem fuse_pair_spec (env : Env) (st : GameState) (A B : Body)
    (k : ShapeType) (t : ℕ)
    (hA : A.shapeData = some ⟨k, t⟩) (hB : B.shapeData = some ⟨k, t⟩)
    (ht : t < (SIZE_LEVELS env.canvasWidth).length - 1)
    (hAmem : A ∈ st.bodies) (hBmem : B ∈ st.bodies) (hAB : A.id ≠ B.id)
    (hnd : (st.bodies.map Body.id).Nodup)
    (hfresh : ∀ b ∈ st.bodies, b.id < st.nextId) :
    (∀ b ∈ (processPair env st (A, B)).bodies, b.id ≠ A.id ∧ b.id ≠ B.id) ∧
    (processPair env st (A, B)).bodies =
      ((st.bodies.filter (fun b => b.id ≠ A.id)).filter (fun b => b.id ≠ B.id))
        ++ [{ id := st.nextId, position := A.position, velocity := (0, 0),
              force := (0, 1/10), isStatic := false, isSensor := false,
              shapeData := some ⟨k, t + 1⟩, prevPositionY := none }] ∧
    (processPair env st (A, B)).fuseSounds = st.fuseSounds + 1 ∧
    (processPair env st (A, B)).maxSizeSounds = st.maxSizeSounds ∧
    (processPair env st (A, B)).bodies.length + 1 = st.bodies.length := by
  have hbodies : (processPair env st (A, B)).bodies =
      ((st.bodies.filter (fun b => b.id ≠ A.id)).filter (fun b => b.id ≠ B.id))
        ++ [{ id := st.nextId, position := A.position, velocity := (0, 0),
              force := (0, 1/10), isStatic := false, isSensor := false,
              shapeData := some ⟨k, t + 1⟩, prevPositionY := none }] := by
    simp [processPair, hA, hB, ht, removeBody, createShapeAtPosition]
  have hsounds : (processPair env st (A, B)).fuseSounds = st.fuseSounds + 1 ∧
      (processPair env st (A, B)).maxSizeSounds = st.maxSizeSounds := by
    constructor <;> simp [processPair, hA, hB, ht, removeBody, createShapeAtPosition]
  refine ⟨?_, hbodies, hsounds.1, hsounds.2, ?_⟩
  · intro b hb
    rw [hbodies] at hb
    rcases List.mem_append.mp hb with hb | hb
    · rcases List.mem_filter.mp hb with ⟨hb', hbB⟩
      rcases List.mem_filter.mp hb' with ⟨-, hbA⟩
      exact ⟨by simpa using hbA, by simpa using hbB⟩
    · rcases List.mem_singleton.mp hb with rfl
      exact ⟨Nat.ne_of_gt (hfresh A hAmem), Nat.ne_of_gt (hfresh B hBmem)⟩
  · rw [hbodies]
    have h1 : ((st.bodies.filter (fun b => b.id ≠ A.id)).length + 1 = st.bodies.length) :=
      length_filter_id_ne hnd hAmem
    have hBmem' : B ∈ st.bodies.filter (fun b => b.id ≠ A.id) := by
      refine List.mem_filter.mpr ⟨hBmem, ?_⟩
      simpa using hAB.symm
    have hnd' := nodup_map_id_filter st.bodies (fun b => decide (b.id ≠ A.id)) hnd
    have h2 := length_filter_id_ne hnd' hBmem'
    simp only [List.length_append, List.length_cons, List.length_nil]
    omega

/-- Witness for `fuse_pair_spec`: two tier-0 circles with ids 0 and 1
fuse into one tier-1 circle; one fuse signal, body count 2 → 1. -/
theorem fuse_pair_spec_witness :
    (processPair demoEnv ⟨[bodyA1, bodyB1], none, 3, 0, 0⟩ (bodyA1, bodyB1)).fuseSounds = 1 ∧
    (processPair demoEnv ⟨[bodyA1, bodyB1], none, 3, 0, 0⟩ (bodyA1, bodyB1)).bodies.length + 1 = 2 := by
  have h := fuse_pair_spec demoEnv ⟨[bodyA1, bodyB1], none, 3, 0, 0⟩ bodyA1 bodyB1
    ShapeType.circle 0 rfl rfl
    (by simp [SIZE_LEVELS, scaleLevels, baseSizeLevels])
    (by simp) (by simp) (by simp [bodyA1, bodyB1, mkShape])
    (by simp [bodyA1, bodyB1, mkShape])
    (by intro b hb; simp [bodyA1, bodyB1, mkShape] at hb; rcases hb with rfl | rfl <;> simp)
  exact ⟨h.2.2.1, h.2.2.2.2⟩

/-- **C3.** Processing a collision pair whose two instances share the
same kind and both have the maximum tier `N-1` destroys both
instances, creates no replacement, and emits the max-size signal
exactly once; the net instance count decreases by two. -/
theorem max_tier_pair_spec (env : Env) (st : GameState) (A B : Body)
    (k : ShapeType)
    (hA : A.shapeData = some ⟨k, (SIZE_LEVELS env.canvasWidth).length - 1⟩)
    (hB : B.shapeData = some ⟨k, (SIZE_LEVELS env.canvasWidth).length - 1⟩)
    (hAmem : A ∈ st.bodies) (hBmem : B ∈ st.bodies) (hAB : A.id ≠ B.id)
    (hnd : (st.bodies.map Body.id).Nodup) :
    (processPair env st (A, B)).bodies =
      (st.bodies.filter (fun b => b.id ≠ A.id)).filter (fun b => b.id ≠ B.id) ∧
    (∀ b ∈ (processPair env st (A, B)).bodies, b.id ≠ A.id ∧ b.id ≠ B.id) ∧
    (processPair env st (A, B)).maxSizeSounds = st.maxSizeSounds + 1 ∧
    (processPair env st (A, B)).fuseSounds = st.fuseSounds ∧
    (processPair env st (A, B)).nextId = st.nextId ∧
    (processPair env st (A, B)).currentShape = st.currentShape ∧
    (processPair env st (A, B)).bodies.length + 2 = st.bodies.length := by
  have hbodies : (processPair env st (A, B)).bodies =
      (st.bodies.filter (fun b => b.id ≠ A.id)).filter (fun b => b.id ≠ B.id) := by
    simp [processPair, hA, hB, removeBody]
  refine ⟨hbodies, ?_, ?_, ?_, ?_, ?_, ?_⟩
  · intro b hb
    rw [hbodies] at hb
    rcases List.mem_filter.mp hb with ⟨hb', hbB⟩
    rcases List.mem_filter.mp hb' with ⟨-, hbA⟩
    exact ⟨by simpa using hbA, by simpa using hbB⟩
  · simp [processPair, hA, hB, removeBody]
  · simp [processPair, hA, hB, removeBody]
  · simp [processPair, hA, hB, removeBody]
  · simp [processPair, hA, hB, removeBody]
  · rw [hbodies]
    have h1 : ((st.bodies.filter (fun b => b.id ≠ A.id)).length + 1 = st.bodies.length) :=
      length_filter_id_ne hnd hAmem
    have hBmem' : B ∈ st.bodies.filter (fun b => b.id ≠ A.id) := by
      refine List.mem_filter.mpr ⟨hBmem, ?_⟩
      simpa using hAB.symm
    have hnd' := nodup_map_id_filter st.bodies (fun b => decide (b.id ≠ A.id)) hnd
    have h2 := length_filter_id_ne hnd' hBmem'
    omega

/-- Witness for `max_tier_pair_spec`: two tier-3 circles annihilate,
one max-size signal, body count 2 → 0, nothing created. -/
theorem max_tier_pair_spec_witness :
    (processPair demoEnv
      ⟨[mkShape 0 100 500 ShapeType.circle 3, mkShape 1 160 500 ShapeType.circle 3],
        none, 2, 0, 0⟩
      (mkShape 0 100 500 ShapeType.circle 3, mkShape 1 160 500 ShapeType.circle 3)).maxSizeSounds = 1 ∧
    (processPair demoEnv
      ⟨[mkShape 0 100 500 ShapeType.circle 3, mkShape 1 160 500 ShapeType.circle 3],
        none, 2, 0, 0⟩
      (mkShape 0 100 500 ShapeType.circle 3, mkShape 1 160 500 ShapeType.circle 3)).bodies.length + 2 = 2 := by
  have h := max_tier_pair_spec demoEnv
    ⟨[mkShape 0 100 500 ShapeType.circle 3, mkShape 1 160 500 ShapeType.circle 3],
      none, 2, 0, 0⟩
    (mkShape 0 100 500 ShapeType.circle 3) (mkShape 1 160 500 ShapeType.circle 3)
    ShapeType.circle
    (by simp [SIZE_LEVELS, scaleLevels, baseSizeLevels, mkShape])
    (by simp [SIZE_LEVELS, scaleLevels, baseSizeLevels, mkShape])
    (by simp) (by simp) (by simp [mkShape]) (by simp [mkShape])
  exact ⟨h.2.2.1, h.2.2.2.2.2.2⟩

/-- **C4, counterexample.** The claim's release condition reads "a
previous-tick vertical-position sample *exists*"; the code tests the
sample for JS truthiness instead.  At a tick where the stored sample
is exactly `0`, the speed is below the rest threshold
(`√(vx²+vy²) < 0.2`, i.e. `vx²+vy² < 1/25`), the rounded positions
agree and the shape is above the lower boundary, the claim demands a
release — but the controller stays Controlled and requests no
spawn. -/
theorem settle_release_truthiness_counterexample :
    stZero.currentShape = some shapeZero ∧
    ¬ shapeZero.position.2 > demoEnv.canvasHeight + 50 ∧
    shapeZero.velocity.1 ^ 2 + shapeZero.velocity.2 ^ 2 < 1/25 ∧
    (∃ p, shapeZero.prevPositionY = some p ∧
      jsRound shapeZero.position.2 = jsRound p) ∧
    (update demoEnv stZero 0 0).currentShape =
      some { shapeZero with prevPositionY := some shapeZero.position.2 } ∧
    (update demoEnv stZero 0 0).nextId = stZero.nextId := by
  refine ⟨rfl, ?_, ?_, ⟨0, rfl, ?_⟩, ?_, ?_⟩
  · norm_num [shapeZero, mkShape, demoEnv]
  · norm_num [shapeZero, mkShape]
  · norm_num [shapeZero, mkShape, jsRound]
  · norm_num [update, stZero, shapeZero, mkShape, demoEnv, settleCheck,
      truthyPrevY, jsRound, setPrevY]
  · norm_num [update, stZero, shapeZero, mkShape, demoEnv, settleCheck,
      truthyPrevY, jsRound, setPrevY]

/-- **C4, amended.** For every display tick while Controlled at which
the shape has not passed the lower boundary, the controller releases
(requests a new spawn, which becomes the new controlled shape) if and
only if the scalar speed is below the rest threshold AND a
previous-tick vertical-position sample exists **with a nonzero
value** (the code's truthiness test) AND the current and previous
vertical positions round to the same whole display unit; otherwise it
remains Controlled, merely storing the current vertical position as
the next tick's sample. -/
theorem settle_release_iff (env : Env) (st : GameState) (shape : Body) (rK rX : ℚ)
    (hcur : st.currentShape = some shape)
    (hbound : ¬ shape.position.2 > env.canvasHeight + 50) :
    ((shape.velocity.1 ^ 2 + shape.velocity.2 ^ 2 < 1/25 ∧
        ∃ p, shape.prevPositionY = some p ∧ p ≠ 0 ∧
          jsRound shape.position.2 = jsRound p) →
      (update env st rK rX).nextId = st.nextId + 1 ∧
      Option.map Body.id (update env st rK rX).currentShape = some st.nextId) ∧
    (¬ (shape.velocity.1 ^ 2 + shape.velocity.2 ^ 2 < 1/25 ∧
        ∃ p, shape.prevPositionY = some p ∧ p ≠ 0 ∧
          jsRound shape.position.2 = jsRound p) →
      (update env st rK rX).nextId = st.nextId ∧
      (update env st rK rX).currentShape =
        some { shape with prevPositionY := some shape.position.2 }) := by
  constructor
  · intro hR
    have hsc : settleCheck shape = true := (settleCheck_eq_true_iff shape).mpr hR
    simp only [update, hcur, if_neg hbound, if_pos hsc]
    constructor
    · simp [setPrevY, spawnShape, createShapeAtPosition]
    · simp [setPrevY, spawnShape, createShapeAtPosition]
  · intro hR
    have hsc : settleCheck shape = false := by
      rcases Bool.eq_false_or_eq_true (settleCheck shape) with h | h
      · exact absurd ((settleCheck_eq_true_iff shape).mp h) hR
      · exact h
    simp only [update, hcur, if_neg hbound, hsc, Bool.false_eq_true, if_false]
    constructor
    · simp [setPrevY, hcur]
    · simp [setPrevY, hcur]

/-- Witness for `settle_release_iff`, exercising both directions: the
genuinely settled `shapeSettled` releases (new spawn id 10), while
`shapeNone` (no previous sample) stays Controlled. -/
theorem settle_release_iff_witness :
    ((update demoEnv stSettled 0 0).nextId = 11 ∧
      Option.map Body.id (update demoEnv stSettled 0 0).currentShape = some 10) ∧
    ((update demoEnv stNone 0 0).nextId = 8 ∧
      (update demoEnv stNone 0 0).currentShape =
        some { shapeNone with prevPositionY := some shapeNone.position.2 }) := by
  constructor
  · exact (settle_release_iff demoEnv stSettled shapeSettled 0 0 rfl
      (by norm_num [shapeSettled, mkShape, demoEnv])).1
      ⟨by norm_num [shapeSettled, mkShape],
        ⟨1/3, rfl, by norm_num, by norm_num [shapeSettled, mkShape, jsRound]⟩⟩
  · exact (settle_release_iff demoEnv stNone shapeNone 0 0 rfl
      (by norm_num [shapeNone, mkShape, demoEnv])).2
      (by rintro ⟨-, p, hp, -⟩
          simp [shapeNone, mkShape] at hp)

/-- **C10.** On a tick where the controlled instance's stored
previous vertical position is exactly `0` or absent, the controller
does not release — even when the speed is below the rest threshold
and the rounded positions agree — because the previous-sample check
is a JS truthiness test rather than an existence test. -/
theorem prevY_zero_blocks_release (env : Env) (st : GameState) (shape : Body) (rK rX : ℚ)
    (hcur : st.currentShape = some shape)
    (hbound : ¬ shape.position.2 > env.canvasHeight + 50)
    (hprev : shape.prevPositionY = some 0 ∨ shape.prevPositionY = none)
    (_hspeed : shape.velocity.1 ^ 2 + shape.velocity.2 ^ 2 < 1/25)
    (_hround : jsRound shape.position.2 = jsRound (shape.prevPositionY.getD 0)) :
    (update env st rK rX).currentShape =
      some { shape with prevPositionY := some shape.position.2 } ∧
    (update env st rK rX).nextId = st.nextId := by
  have hsc : settleCheck shape = false := by
    rcases hprev with h | h <;>
      simp [settleCheck, truthyPrevY, h]
  simp only [update, hcur, if_neg hbound, hsc, Bool.false_eq_true, if_false]
  constructor
  · simp [setPrevY, hcur]
  · simp [setPrevY, hcur]

/-- Witness for `prevY_zero_blocks_release`: `shapeNone` (sample
absent, at rest, rounded positions both `0`) stays Controlled. -/
theorem prevY_zero_blocks_release_witness :
    (update demoEnv stNone 0 0).currentShape =
      some { shapeNone with prevPositionY := some shapeNone.position.2 } ∧
    (update demoEnv stNone 0 0).nextId = 8 := by
  have h := prevY_zero_blocks_release demoEnv stNone shapeNone 0 0 rfl
    (by norm_num [shapeNone, mkShape, demoEnv])
    (Or.inr rfl)
    (by norm_num [shapeNone, mkShape])
    (by norm_num [shapeNone, mkShape, jsRound])
  exact h

/-- **C5.** At a display tick where the controlled instance's vertical
position exceeds the field's lower boundary plus the margin
(`canvasHeight + 50`), the controller destroys that instance and
requests a new spawn whose tier index is `0`, whose kind is drawn
from the fixed kind set, and whose horizontal position lies within
the field's horizontal bounds minus the side margins
(`30 ≤ x ≤ canvasWidth - 30` for draws in `[0, 1)`). -/
theorem offscreen_respawn (env : Env) (st : GameState) (shape : Body) (rK rX : ℚ)
    (hcur : st.currentShape = some shape)
    (hb : shape.position.2 > env.canvasHeight + 50)
    (hrX0 : 0 ≤ rX) (hrX1 : rX < 1)
    (hW : 60 ≤ env.canvasWidth)
    (hfresh : shape.id < st.nextId) :
    (∀ b ∈ (update env st rK rX).bodies, b.id ≠ shape.id) ∧
    (update env st rK rX).nextId = st.nextId + 1 ∧
    ∃ b k, (update env st rK rX).currentShape = some b ∧
      b.id = st.nextId ∧ b.shapeData = some ⟨k, 0⟩ ∧ k ∈ SHAPE_TYPES ∧
      30 ≤ b.position.1 ∧ b.position.1 ≤ env.canvasWidth - 30 := by
  have hx0 : (30 : ℚ) ≤ rX * (env.canvasWidth - 60) + 30 := by nlinarith
  have hx1 : rX * (env.canvasWidth - 60) + 30 ≤ env.canvasWidth - 30 := by nlinarith
  simp only [update, hcur, if_pos hb]
  refine ⟨?_, ?_, ?_⟩
  · intro b hb'
    simp only [setPrevY, spawnShape, createShapeAtPosition, removeBody,
      List.map_append, List.mem_append, List.map_cons, List.map_nil,
      List.mem_cons, List.not_mem_nil, or_false, List.mem_map,
      List.mem_filter] at hb'
    rcases hb' with ⟨a, ⟨-, ha⟩, rfl⟩ | hb'
    · split
      · show st.nextId ≠ shape.id
        omega
      · simpa using ha
    · rw [hb']
      show st.nextId ≠ shape.id
      omega
  · simp [setPrevY, spawnShape, createShapeAtPosition, removeBody]
  · refine ⟨{ id := st.nextId,
              position := (rX * (env.canvasWidth - 60) + 30, -60),
              velocity := (0, 0), force := (0, 1/10),
              isStatic := false, isSensor := false,
              shapeData := some ⟨SHAPE_TYPES.getD
                (Int.toNat ⌊rK * (SHAPE_TYPES.length : ℚ)⌋) ShapeType.circle, 0⟩,
              prevPositionY := some (-60) },
      SHAPE_TYPES.getD (Int.toNat ⌊rK * (SHAPE_TYPES.length : ℚ)⌋) ShapeType.circle,
      ?_, rfl, rfl, mem_SHAPE_TYPES _, hx0, hx1⟩
    simp [setPrevY, spawnShape, createShapeAtPosition, removeBody]

/-- Witness for `offscreen_respawn`: `shapeFallen` (`y = 1100` in a
1000-high field) is destroyed and replaced by a fresh tier-0 spawn
with id 12 at `x = 30` (draws `rK = rX = 0`). -/
theorem offscreen_respawn_witness :
    (∀ b ∈ (update demoEnv stFallen 0 0).bodies, b.id ≠ 11) ∧
    (update demoEnv stFallen 0 0).nextId = 13 ∧
    ∃ b k, (update demoEnv stFallen 0 0).currentShape = some b ∧
      b.id = 12 ∧ b.shapeData = some ⟨k, 0⟩ ∧ k ∈ SHAPE_TYPES ∧
      30 ≤ b.position.1 ∧ b.position.1 ≤ demoEnv.canvasWidth - 30 := by
  have h := offscreen_respawn demoEnv stFallen shapeFallen 0 0 rfl
    (by norm_num [shapeFallen, mkShape, demoEnv])
    (by norm_num) (by norm_num)
    (by norm_num [demoEnv])
    (by norm_num [shapeFallen, mkShape, stFallen])
  exact h

/-- **C7.** Every operation that creates a shape instance — a direct
`createShapeAtPosition` (initial spawn and respawn go through
`spawnShape`, which calls it; a fusion successor is created by the
`collisionStart` handler's fuse branch) — tags the new body with
`{kind, tierIndex}`, applies the downward nudge force, and registers
the created instance as the sole new ActiveSpawn (`currentShape`),
replacing whatever was previously controlled.  Since `currentShape`
is a single optional slot, at most one instance is ever Controlled. -/
theorem creation_registers_activeSpawn (env : Env) (st : GameState)
    (type : ShapeType) (sizeIndex : ℕ) (x y rK rX : ℚ)
    (A B : Body) (k : ShapeType) (t : ℕ)
    (hA : A.shapeData = some ⟨k, t⟩) (hB : B.shapeData = some ⟨k, t⟩)
    (ht : t < (SIZE_LEVELS env.canvasWidth).length - 1) :
    ((createShapeAtPosition st type sizeIndex x y).currentShape =
        some { id := st.nextId, position := (x, y), velocity := (0, 0),
               force := (0, 1/10), isStatic := false, isSensor := false,
               shapeData := some ⟨type, sizeIndex⟩, prevPositionY := none } ∧
      (createShapeAtPosition st type sizeIndex x y).bodies =
        st.bodies ++ [{ id := st.nextId, position := (x, y), velocity := (0, 0),
                        force := (0, 1/10), isStatic := false, isSensor := false,
                        shapeData := some ⟨type, sizeIndex⟩, prevPositionY := none }]) ∧
    (∃ b, (spawnShape env st rK rX).currentShape = some b ∧ b.id = st.nextId ∧
      Option.map ShapeData.sizeIndex b.shapeData = some 0 ∧ b.force = (0, 1/10)) ∧
    (∃ b, (processPair env st (A, B)).currentShape = some b ∧ b.id = st.nextId ∧
      b.shapeData = some ⟨k, t + 1⟩) := by
  refine ⟨⟨rfl, rfl⟩, ?_, ?_⟩
  · exact ⟨_, rfl, rfl, rfl, rfl⟩
  · refine ⟨{ id := st.nextId, position := A.position, velocity := (0, 0),
              force := (0, 1/10), isStatic := false, isSensor := false,
              shapeData := some ⟨k, t + 1⟩, prevPositionY := none }, ?_, rfl, rfl⟩
    simp [processPair, hA, hB, ht, removeBody, createShapeAtPosition]

/-- Witness for `creation_registers_activeSpawn`: creating a tier-0
rounded rectangle over an empty world (and, for the fusion conjunct,
fusing the tier-0 circles `bodyA1`, `bodyB1`) registers the created
body as the controlled shape. -/
theorem creation_registers_activeSpawn_witness :
    Option.map Body.id (createShapeAtPosition ⟨[], none, 0, 0, 0⟩
      ShapeType.roundedRect 0 500 (-60)).currentShape = some 0 := by
  have h := creation_registers_activeSpawn demoEnv ⟨[], none, 0, 0, 0⟩
    ShapeType.roundedRect 0 500 (-60) 0 0 bodyA1 bodyB1 ShapeType.circle 0
    rfl rfl (by simp [SIZE_LEVELS, scaleLevels, baseSizeLevels])
  rw [h.1.1]
  rfl

/-- **C1.** The claim says a pair referencing a handle destroyed
earlier in the same batch is skipped, so that a batch `(A,B), (B,C)`
of same-kind same-tier bodies yields exactly one fusion and leaves C
alive.  The code has no destroyed-this-batch set: the second pair
still sees B's `plugin.shapeData` through the pair's object
reference, fires a second fusion, and destroys C.  Evaluating the
handler on scenario D's batch: two fuse signals, C's id gone from
the world, and two successor bodies (instead of one fusion, two
survivors C and the successor). -/
theorem batch_double_fusion :
    (collisionStart demoEnv stBatch [(bodyA1, bodyB1), (bodyB1, bodyC1)]).fuseSounds = 2 ∧
    (∀ b ∈ (collisionStart demoEnv stBatch [(bodyA1, bodyB1), (bodyB1, bodyC1)]).bodies,
      b.id ≠ bodyC1.id) ∧
    (collisionStart demoEnv stBatch [(bodyA1, bodyB1), (bodyB1, bodyC1)]).bodies.length = 2 ∧
    (∀ b ∈ (collisionStart demoEnv stBatch [(bodyA1, bodyB1), (bodyB1, bodyC1)]).bodies,
      Option.map ShapeData.sizeIndex b.shapeData = some 1) := by
  refine ⟨?_, ?_, ?_, ?_⟩ <;>
    simp [collisionStart, processPair, stBatch, bodyA1, bodyB1, bodyC1, mkShape,
      demoEnv, SIZE_LEVELS, scaleLevels, baseSizeLevels, removeBody,
      createShapeAtPosition]

/-- **C8.** The claim says the tier catalog is validated at
construction, a `ConfigurationError` aborting startup on violation.
The source constructs the catalog from literals and an unconditional
scaling loop; no check and no error type exist.  Construction run on
an invalid table (two tiers instead of the four the color arrays
have, negative and non-monotonic radii) completes normally and
yields a catalog violating the spec's invariant — while the shipped
literal table does happen to satisfy it. -/
theorem catalog_construction_unvalidated :
    (scaleLevels 2000 badLevels).length = 2 ∧
    ¬ specCatalogValid (scaleLevels 2000 badLevels) shapeColorMap ∧
    specCatalogValid (SIZE_LEVELS 2000) shapeColorMap := by
  refine ⟨rfl, ?_, ?_, ?_, ?_⟩
  · rintro ⟨hlen, -, -⟩
    have h := hlen ShapeType.circle
    simp [shapeColorMap, scaleLevels, badLevels] at h
  · intro k
    cases k <;> rfl
  · intro sl hsl
    simp only [SIZE_LEVELS, scaleLevels, baseSizeLevels, List.map_cons,
      List.map_nil, List.mem_cons, List.not_mem_nil, or_false] at hsl
    rcases hsl with rfl | rfl | rfl | rfl <;> norm_num
  · simp only [SIZE_LEVELS, scaleLevels, baseSizeLevels, List.map_cons,
      List.map_nil, List.chain'_cons, List.chain'_singleton, and_true]
    norm_num

end MatterTest
